import Mathlib

/-!
Shallow embedding of `src/main.py`, a thin HTTP gateway ("REI Service") that
relays chat requests to a fixed upstream chat-completion API.

JSON values returned by `response.json()` are modelled by the inductive `JVal`.
Python operations used by the handler (`in`, `len`, subscripting, `dict.get`)
are modelled as `Except String` computations: the `String` on the error side is
the Python exception description `str(e)` that the handler turns into an HTTP
500 error.  String lowercasing models Python `str.lower` on the ASCII range.
-/

/-- A JSON value, as produced by `response.json()` in the source. -/
inductive JVal where
  | null : JVal
  | bool : Bool → JVal
  | num : Int → JVal
  | str : String → JVal
  | arr : List JVal → JVal
  | obj : List (String × JVal) → JVal

/-- Python type name of a value, as it appears in exception messages. -/
def pyTypeName : JVal → String
  | .null => "NoneType"
  | .bool _ => "bool"
  | .num _ => "int"
  | .str _ => "str"
  | .arr _ => "list"
  | .obj _ => "dict"

/-- Equality of a JSON value with the Python string `k`, as tested by `==`
inside a Python `in` membership check on a list. -/
def jvalIsStrEq (k : String) : JVal → Bool
  | .str s => s == k
  | _ => false

/-- Python membership test `k in v` for a string `k`: key membership for a
dict, element equality for a list, substring test for a string, `TypeError`
otherwise. -/
def pyContainsStr (k : String) : JVal → Except String Bool
  | .obj fields => .ok (fields.any (fun kv => kv.1 == k))
  | .arr elems => .ok (elems.any (jvalIsStrEq k))
  | .str s => .ok (decide (k.data <:+: s.data))
  | v => .error ("argument of type \x27" ++ pyTypeName v ++ "\x27 is not iterable")

/-- Python `len(v)`: defined for strings, lists and dicts, `TypeError`
otherwise. -/
def pyLen : JVal → Except String Nat
  | .str s => .ok s.length
  | .arr elems => .ok elems.length
  | .obj fields => .ok fields.length
  | v => .error ("object of type \x27" ++ pyTypeName v ++ "\x27 has no len()")

/-- Python subscript `v[k]` with a string key `k`: dict lookup (`KeyError` when
absent), `TypeError` on every other type. -/
def pySubscriptStr (v : JVal) (k : String) : Except String JVal :=
  match v with
  | .obj fields =>
      match fields.find? (fun kv => kv.1 == k) with
      | some kv => .ok kv.2
      | none => .error ("\x27" ++ k ++ "\x27")
  | .arr _ => .error "list indices must be integers or slices, not str"
  | .str _ => .error "string indices must be integers"
  | v => .error ("\x27" ++ pyTypeName v ++ "\x27 object is not subscriptable")

/-- Python subscript `v[0]`: first element of a list (`IndexError` when empty),
first character of a string, `KeyError` on a string-keyed dict, `TypeError` on
every other type. -/
def pySubscriptZero (v : JVal) : Except String JVal :=
  match v with
  | .arr [] => .error "list index out of range"
  | .arr (x :: _) => .ok x
  | .str s =>
      match s.data with
      | [] => .error "string index out of range"
      | c :: _ => .ok (.str (String.mk [c]))
  | .obj _ => .error "0"
  | v => .error ("\x27" ++ pyTypeName v ++ "\x27 object is not subscriptable")

/-- Python `v.get(k, default)`: only dicts have the `get` attribute; every
other type raises `AttributeError`. -/
def pyGet (v : JVal) (k : String) (default : JVal) : Except String JVal :=
  match v with
  | .obj fields =>
      match fields.find? (fun kv => kv.1 == k) with
      | some kv => .ok kv.2
      | none => .ok default
  | v => .error ("\x27" ++ pyTypeName v ++ "\x27 object has no attribute \x27get\x27")

/-- ASCII uppercase/lowercase letter pairs, driving the model of Python
`str.lower` on the ASCII range. -/
def asciiCasePairs : List (Char × Char) :=
  [('A', 'a'), ('B', 'b'), ('C', 'c'), ('D', 'd'), ('E', 'e'), ('F', 'f'),
   ('G', 'g'), ('H', 'h'), ('I', 'i'), ('J', 'j'), ('K', 'k'), ('L', 'l'),
   ('M', 'm'), ('N', 'n'), ('O', 'o'), ('P', 'p'), ('Q', 'q'), ('R', 'r'),
   ('S', 's'), ('T', 't'), ('U', 'u'), ('V', 'v'), ('W', 'w'), ('X', 'x'),
   ('Y', 'y'), ('Z', 'z')]

/-- Test for an ASCII uppercase letter. -/
def isUpperAscii (c : Char) : Bool :=
  asciiCasePairs.any (fun p => p.1 == c)

/-- Model of Python `str.lower` on a single character: ASCII uppercase letters
map to their lowercase counterparts, all other characters are unchanged. -/
def pyLowerChar (c : Char) : Char :=
  match asciiCasePairs.find? (fun p => p.1 == c) with
  | some p => p.2
  | none => c

/-- Model of Python `str.lower` (restricted to the ASCII case mapping, which
covers environment-variable-derived unit names). -/
def pyLower (s : String) : String :=
  String.mk (s.data.map pyLowerChar)


/-- Python `repr` of one character inside a quoted string literal, with the
chosen quote character `q`.  Backslash, the quote character and the common
control characters are escaped; other characters are kept verbatim (the
registry keys the gateway ever prints are plain identifiers). -/
def pyReprChar (q : Char) (c : Char) : String :=
  if c == Char.ofNat 92 then String.mk [Char.ofNat 92, Char.ofNat 92]
  else if c == q then String.mk [Char.ofNat 92, q]
  else if c == Char.ofNat 10 then String.mk [Char.ofNat 92, 'n']
  else if c == Char.ofNat 13 then String.mk [Char.ofNat 92, 'r']
  else if c == Char.ofNat 9 then String.mk [Char.ofNat 92, 't']
  else String.mk [c]

/-- Python `repr` of a string: single-quoted, switching to double quotes when
the string holds a single quote but no double quote. -/
def pyReprString (s : String) : String :=
  let q : Char :=
    if s.data.contains (Char.ofNat 39) && !(s.data.contains (Char.ofNat 34))
    then Char.ofNat 34 else Char.ofNat 39
  String.mk [q] ++ String.join (s.data.map (pyReprChar q)) ++ String.mk [q]

/-- Python `repr` of a list of strings, as produced by the f-string
interpolation of `list(rei_agents.keys())` in the source. -/
def pyReprStringList (xs : List String) : String :=
  "[" ++ String.intercalate ", " (xs.map pyReprString) ++ "]"

/-! ### The unit registry (source lines 48 to 52)

Python dicts keep insertion order and hold unique keys; the registry is
modelled as an association list maintained by `dictInsert`, which updates an
existing key in place and appends a fresh key at the end, exactly as dict
assignment does. -/

/-- Python dict assignment `d[k] = v` on an association list with unique
keys: update in place when the key exists, append otherwise. -/
def dictInsert (d : List (String × String)) (k v : String) :
    List (String × String) :=
  if d.any (fun kv => kv.1 == k) then
    d.map (fun kv => if kv.1 == k then (k, v) else kv)
  else d ++ [(k, v)]

/-- Keys of the registry, in insertion order (`list(rei_agents.keys())`). -/
def dictKeys (d : List (String × String)) : List String :=
  d.map (fun kv => kv.1)

/-- Python dict lookup `d[k]` returning `none` when the key is absent
(`k not in d` is `(lookupSecret d k).isNone`). -/
def lookupSecret : List (String × String) → String → Option String
  | [], _ => none
  | kv :: rest, k => if kv.1 == k then some kv.2 else lookupSecret rest k

/-- One step of the registry-building loop: an environment entry contributes
its secret under the lowercased, prefix-stripped name exactly when its name
starts with `REI_AGENT_SECRET_` and its value is non-empty (Python truthiness
of the value string). -/
def reiAgentsStep (d : List (String × String)) (kv : String × String) :
    List (String × String) :=
  if kv.1.startsWith "REI_AGENT_SECRET_" && kv.2 != "" then
    dictInsert d (pyLower (kv.1.replace "REI_AGENT_SECRET_" "")) kv.2
  else d

/-- The unit registry built from the process environment (an ordered list of
name/value pairs), source lines 48 to 52. -/
def rei_agents (environ : List (String × String)) : List (String × String) :=
  environ.foldl reiAgentsStep []

/-! ### The chat handler (source lines 63 to 149) -/

/-- The outbound HTTP request the handler sends with `client.post`
(source lines 98 to 105). -/
structure OutboundRequest where
  url : String
  authorization : String
  contentType : String
  body : JVal

/-- The JSON payload returned to the client on success
(source lines 128 to 133). -/
structure ChatResponse where
  content : JVal
  unit : String
  raw_input_length : Nat
  raw_response : JVal

/-- An HTTPException raised by the handler: status code plus detail body. -/
structure HTTPError where
  status : Nat
  detail : String

/-- Outcome of the single outbound call, as seen by the handler: a read
timeout (`httpx.ReadTimeout`), some other network failure carrying its
`str(e)` description, or an HTTP response with status code, raw text body and
the result of `response.json()` (`.error` being a `JSONDecodeError`
description). -/
inductive UpstreamOutcome where
  | readTimeout : UpstreamOutcome
  | failure : String → UpstreamOutcome
  | response : Nat → String → Except String JVal → UpstreamOutcome

/-- The fixed timeout handed to `httpx.AsyncClient`, in seconds
(source line 97: `timeout=3000.0`). -/
def clientTimeoutSeconds : Nat := 3000

/-- The fixed upstream endpoint (source line 99). -/
def reiApiUrl : String := "https://api.reisearch.box/rei/agents/chat-completion"

/-- Detail of the 404 raised when the unit id is not registered
(source line 77). -/
def unitNotFoundDetail (unit_id : String) (units : List String) : String :=
  "REI unit \x27" ++ unit_id ++ "\x27 not found. Available units: "
    ++ pyReprStringList units

/-- Detail of the 504 raised on an upstream read timeout (source line 145). -/
def gatewayTimeoutDetail : String :=
  "The REI API took too long to respond (over 50 minutes). Try a simpler query or check back later."

/-- Extraction of `content` from the parsed 200 body (source lines 124 to
126): start from the empty string; when `choices` is a member of the body and
`len(body[\x27choices\x27]) > 0`, take
`body[\x27choices\x27][0].get(\x27message\x27, dict()).get(\x27content\x27, str())`.
Any Python exception on the way surfaces on the error side. -/
def extractContent (response_data : JVal) : Except String JVal := do
  let hasChoices ← pyContainsStr "choices" response_data
  if hasChoices then
    let choices ← pySubscriptStr response_data "choices"
    let n ← pyLen choices
    if n > 0 then
      let first ← pySubscriptZero choices
      let msg ← pyGet first "message" (.obj [])
      pyGet msg "content" (.str "")
    else
      pure (.str "")
  else
    pure (.str "")

/-- Handling of the parsed 200 response (source lines 121 to 139): extract the
content, then build the final payload.  The summary log line computes
`len(content)` (source line 136), so a content value without a Python length
still turns the request into a 500. -/
def handle200 (unit_id : String) (text : String) (response_data : JVal) :
    Except HTTPError ChatResponse :=
  match extractContent response_data with
  | .error desc => .error (HTTPError.mk 500 desc)
  | .ok content =>
      match pyLen content with
      | .error desc => .error (HTTPError.mk 500 desc)
      | .ok _ =>
          .ok (ChatResponse.mk content unit_id text.length response_data)

/-- The POST /chat/(unit_id) handler `chat_with_specific_unit` (source lines
63 to 149), as a function of the registry, the path parameter, the request
text and the outcome of the outbound call.  The first component is the list of
outbound requests actually issued; the second is the HTTP result. -/
def chat_with_specific_unit (agents : List (String × String))
    (unit_id : String) (text : String) (upstream : UpstreamOutcome) :
    List OutboundRequest × Except HTTPError ChatResponse :=
  match lookupSecret agents unit_id with
  | none =>
      ([], .error (HTTPError.mk 404 (unitNotFoundDetail unit_id (dictKeys agents))))
  | some secret =>
      let req : OutboundRequest :=
        { url := reiApiUrl
          authorization := "Bearer " ++ secret
          contentType := "application/json"
          body := .obj [("messages",
            .arr [.obj [("role", .str "user"), ("content", .str text)]])] }
      ([req],
        match upstream with
        | .readTimeout => .error (HTTPError.mk 504 gatewayTimeoutDetail)
        | .failure desc => .error (HTTPError.mk 500 desc)
        | .response status text2 jsonBody =>
            if status == 401 then .error (HTTPError.mk 401 "Unauthorized")
            else if status == 404 then .error (HTTPError.mk 404 "Agent not found")
            else if status != 200 then
              .error (HTTPError.mk status ("API error: " ++ text2))
            else
              match jsonBody with
              | .error desc => .error (HTTPError.mk 500 desc)
              | .ok response_data => handle200 unit_id text response_data)

/-- The GET /units handler `list_available_units` (source lines 151 to 160). -/
def list_available_units (agents : List (String × String)) :
    List String × Nat :=
  (dictKeys agents, agents.length)

/-- The GET /health handler `health_check` (source lines 162 to 167). -/
def health_check (agents : List (String × String)) : String × Nat :=
  ("healthy", agents.length)

/-! ### Helper lemmas -/

/-- Dict lookup fails exactly when the key is not among the dict keys. -/
theorem lookupSecret_eq_none_iff (d : List (String × String)) (u : String) :
    lookupSecret d u = none ↔ u ∉ dictKeys d := by
  induction d with
  | nil => simp [lookupSecret, dictKeys]
  | cons kv rest ih =>
      simp only [lookupSecret, dictKeys, List.map_cons, List.mem_cons]
      by_cases h : kv.1 = u
      · simp [h]
      · simp only [dictKeys] at ih
        simp [h, ih, Ne.symm h]

/-- The not-found branch of the handler: an unregistered unit id yields the
404 with the enumerating detail, and no outbound request is issued. -/
theorem chat_unit_not_found (agents : List (String × String))
    (unit_id text : String) (upstream : UpstreamOutcome)
    (h : lookupSecret agents unit_id = none) :
    chat_with_specific_unit agents unit_id text upstream
      = ([], .error (HTTPError.mk 404
          (unitNotFoundDetail unit_id (dictKeys agents)))) := by
  unfold chat_with_specific_unit
  rw [h]

/-! ### Claims -/

/-- C9: for every registry state, including the empty one, GET /health
returns status healthy together with the number of configured units. -/
theorem c9_health_always_healthy (agents : List (String × String)) :
    health_check agents = ("healthy", agents.length) := rfl

/-- C8: GET /units returns the configured unit identifiers together with a
count equal to the length of that list, for every registry; with an empty
registry it returns the empty list and count 0.  The handler is a pure
function of the registry, so it does not modify it. -/
theorem c8_units_list_and_count (agents : List (String × String)) :
    list_available_units agents = (dictKeys agents, (dictKeys agents).length)
      ∧ list_available_units [] = ([], 0) := by
  constructor
  · simp [list_available_units, dictKeys]
  · rfl

/-- C1: for every registered unit and every caller text (empty included),
the handler issues exactly one outbound POST, to the fixed endpoint, whose
JSON body is the messages envelope with the text unchanged and whose
Authorization header carries the full, untruncated credential of that unit —
whatever the outcome of the call turns out to be. -/
theorem c1_single_post_full_credential (agents : List (String × String))
    (unit_id text secret : String) (upstream : UpstreamOutcome)
    (h : lookupSecret agents unit_id = some secret) :
    (chat_with_specific_unit agents unit_id text upstream).1
      = [OutboundRequest.mk reiApiUrl ("Bearer " ++ secret) "application/json"
          (JVal.obj [("messages", JVal.arr
            [JVal.obj [("role", JVal.str "user"),
                       ("content", JVal.str text)]])])] := by
  unfold chat_with_specific_unit
  rw [h]

theorem c1_single_post_full_credential_witness :
    (chat_with_specific_unit [("alpha", "sk-full-credential-0123456789")]
        "alpha" "hello world" UpstreamOutcome.readTimeout).1
      = [OutboundRequest.mk reiApiUrl
          ("Bearer " ++ "sk-full-credential-0123456789") "application/json"
          (JVal.obj [("messages", JVal.arr
            [JVal.obj [("role", JVal.str "user"),
                       ("content", JVal.str "hello world")]])])] :=
  c1_single_post_full_credential [("alpha", "sk-full-credential-0123456789")]
    "alpha" "hello world" "sk-full-credential-0123456789"
    UpstreamOutcome.readTimeout rfl

/-- C4: for every unit id absent from the registry, the handler fails with a
404 whose detail enumerates exactly the configured unit identifiers (a string
built from the identifiers alone, so no credential value can appear in it),
and no outbound request is issued. -/
theorem c4_unknown_unit_404_no_outbound (agents : List (String × String))
    (unit_id text : String) (upstream : UpstreamOutcome)
    (h : lookupSecret agents unit_id = none) :
    chat_with_specific_unit agents unit_id text upstream
      = ([], .error (HTTPError.mk 404
          (unitNotFoundDetail unit_id (dictKeys agents)))) :=
  chat_unit_not_found agents unit_id text upstream h

theorem c4_unknown_unit_404_no_outbound_witness :
    chat_with_specific_unit
        [("alpha", "sk-1"), ("beta", "sk-2")] "gamma" "hi"
        UpstreamOutcome.readTimeout
      = ([], .error (HTTPError.mk 404
          "REI unit \x27gamma\x27 not found. Available units: [\x27alpha\x27, \x27beta\x27]")) :=
  c4_unknown_unit_404_no_outbound [("alpha", "sk-1"), ("beta", "sk-2")]
    "gamma" "hi" UpstreamOutcome.readTimeout rfl

/-- C2 counterexample: an upstream 200 whose body is the object mapping
choices to the one-element array holding the number 5 does not contain the
choices-message-content shape, yet the handler raises a 500 (the Python
AttributeError from calling get on an int) instead of returning an empty
content. -/
theorem c2_malformed_choice_raises_500 :
    (chat_with_specific_unit [("alpha", "sk-1")] "alpha" "hi"
        (UpstreamOutcome.response 200 ""
          (.ok (JVal.obj [("choices", JVal.arr [JVal.num 5])])))).2
      = .error (HTTPError.mk 500
          "\x27int\x27 object has no attribute \x27get\x27") := rfl

/-- C2 (amended): for every upstream 200 response whose JSON body is an
object lacking the key choices, the handler returns a ChatResponse whose
content is the empty string and raises no error. -/
theorem c2_missing_choices_empty_content (agents : List (String × String))
    (unit_id text secret txt : String) (fields : List (String × JVal))
    (h : lookupSecret agents unit_id = some secret)
    (hnc : fields.any (fun kv => kv.1 == "choices") = false) :
    (chat_with_specific_unit agents unit_id text
        (UpstreamOutcome.response 200 txt (.ok (JVal.obj fields)))).2
      = .ok (ChatResponse.mk (JVal.str "") unit_id text.length
          (JVal.obj fields)) := by
  unfold chat_with_specific_unit
  rw [h]
  simp [handle200, extractContent, pyContainsStr, hnc, pyLen, Bind.bind, Except.bind, Pure.pure, Except.pure]

theorem c2_missing_choices_empty_content_witness :
    (chat_with_specific_unit [("alpha", "sk-1")] "alpha" "hi"
        (UpstreamOutcome.response 200 "" (.ok (JVal.obj [("ok", JVal.bool true)])))).2
      = .ok (ChatResponse.mk (JVal.str "") "alpha" 2
          (JVal.obj [("ok", JVal.bool true)])) :=
  c2_missing_choices_empty_content [("alpha", "sk-1")] "alpha" "hi" "sk-1" ""
    [("ok", JVal.bool true)] rfl rfl

/-- An upstream-error detail never coincides with the timeout detail: the two
start with different words. -/
theorem apiErrorDetail_ne_timeout (t : String) :
    "API error: " ++ t ≠ gatewayTimeoutDetail := by
  intro h
  have hd : ("API error: " ++ t).data = gatewayTimeoutDetail.data :=
    congrArg String.data h
  rw [String.data_append] at hd
  have h11 := congrArg (List.take 11) hd
  rw [List.take_left' (by decide : ("API error: " : String).data.length = 11)]
    at h11
  exact absurd h11 (by decide)

/-- Whenever the 200-parsing stage fails, the resulting error has status 500. -/
theorem handle200_error_status (u t : String) (rd : JVal) (e : HTTPError)
    (h : handle200 u t rd = .error e) : e.status = 500 := by
  unfold handle200 at h
  split at h
  · injection h with h1
    rw [← h1]
  · split at h
    · injection h with h1
      rw [← h1]
    · exact Except.noConfusion h

/-- C3: no stored credential reaches any error detail.  The result body sent
to the client (success or error alike) is unchanged when every credential in
the registry is replaced while the unit identifiers stay the same, so neither
the UnitNotFound enumeration, nor the fixed Unauthorized, AgentNotFound and
GatewayTimeout details, nor the pass-through of upstream text and exception
descriptions, can carry credential material. -/
theorem c3_details_independent_of_credentials
    (a1 a2 : List (String × String)) (unit_id text : String)
    (upstream : UpstreamOutcome) (hk : dictKeys a1 = dictKeys a2) :
    (chat_with_specific_unit a1 unit_id text upstream).2
      = (chat_with_specific_unit a2 unit_id text upstream).2 := by
  cases h1 : lookupSecret a1 unit_id with
  | none =>
      have h2 : lookupSecret a2 unit_id = none := by
        rw [lookupSecret_eq_none_iff, ← hk, ← lookupSecret_eq_none_iff]
        exact h1
      rw [chat_unit_not_found a1 unit_id text upstream h1,
          chat_unit_not_found a2 unit_id text upstream h2, hk]
  | some s1 =>
      cases h2 : lookupSecret a2 unit_id with
      | none =>
          exfalso
          rw [lookupSecret_eq_none_iff, ← hk, ← lookupSecret_eq_none_iff] at h2
          rw [h2] at h1
          exact Option.noConfusion h1
      | some s2 =>
          unfold chat_with_specific_unit
          rw [h1, h2]

theorem c3_details_independent_of_credentials_witness :
    (chat_with_specific_unit [("alpha", "sk-credential-one")] "alpha" "hi"
        (UpstreamOutcome.response 403 "forbidden" (.ok JVal.null))).2
      = (chat_with_specific_unit [("alpha", "sk-other-credential")] "alpha" "hi"
          (UpstreamOutcome.response 403 "forbidden" (.ok JVal.null))).2 :=
  c3_details_independent_of_credentials
    [("alpha", "sk-credential-one")] [("alpha", "sk-other-credential")]
    "alpha" "hi" (UpstreamOutcome.response 403 "forbidden" (.ok JVal.null)) rfl

/-- C5: the upstream status is dispatched in order with first match winning:
401 yields gateway 401 Unauthorized, 404 yields the agent-not-found 404
(distinct from the unit-not-found detail), every other non-200 status is
surfaced unchanged with the raw upstream body in the detail, and only a 200
proceeds to JSON parsing. -/
theorem c5_status_dispatch (agents : List (String × String))
    (unit_id text secret txt : String) (jb : Except String JVal) (status : Nat)
    (h : lookupSecret agents unit_id = some secret) :
    ((chat_with_specific_unit agents unit_id text
        (UpstreamOutcome.response 401 txt jb)).2
      = .error (HTTPError.mk 401 "Unauthorized"))
    ∧ ((chat_with_specific_unit agents unit_id text
        (UpstreamOutcome.response 404 txt jb)).2
      = .error (HTTPError.mk 404 "Agent not found"))
    ∧ (status ≠ 401 → status ≠ 404 → status ≠ 200 →
        (chat_with_specific_unit agents unit_id text
            (UpstreamOutcome.response status txt jb)).2
          = .error (HTTPError.mk status ("API error: " ++ txt)))
    ∧ ((chat_with_specific_unit agents unit_id text
        (UpstreamOutcome.response 200 txt jb)).2
      = match jb with
        | .error desc => .error (HTTPError.mk 500 desc)
        | .ok response_data => handle200 unit_id text response_data) := by
  refine ⟨?_, ?_, ?_, ?_⟩
  · unfold chat_with_specific_unit
    rw [h]
    rfl
  · unfold chat_with_specific_unit
    rw [h]
    rfl
  · intro h401 h404 h200
    unfold chat_with_specific_unit
    rw [h]
    simp [h401, h404, h200]
  · unfold chat_with_specific_unit
    rw [h]
    rfl

theorem c5_status_dispatch_witness :
    (chat_with_specific_unit [("alpha", "sk-1")] "alpha" "hi"
        (UpstreamOutcome.response 503 "overloaded" (.ok JVal.null))).2
      = .error (HTTPError.mk 503 ("API error: " ++ "overloaded")) :=
  (c5_status_dispatch [("alpha", "sk-1")] "alpha" "hi" "sk-1" "overloaded"
      (.ok JVal.null) 503 rfl).2.2.1
    (by decide) (by decide) (by decide)

set_option maxRecDepth 4096 in
/-- C6: a read timeout on the outbound call yields status 504 with the fixed
message telling the caller the upstream may still be working (it suggests
checking back later); the per-call timeout handed to the HTTP client is the
fixed 3000 seconds, i.e. 50 minutes; and no upstream HTTP response, whatever
its status or body, produces the same gateway error as the timeout. -/
theorem c6_read_timeout_504 (agents : List (String × String))
    (unit_id text secret : String)
    (h : lookupSecret agents unit_id = some secret) :
    ((chat_with_specific_unit agents unit_id text
        UpstreamOutcome.readTimeout).2
      = .error (HTTPError.mk 504 gatewayTimeoutDetail))
    ∧ ("check back later".data <:+: gatewayTimeoutDetail.data)
    ∧ clientTimeoutSeconds = 50 * 60
    ∧ (∀ (status : Nat) (txt : String) (jb : Except String JVal),
        (chat_with_specific_unit agents unit_id text
            (UpstreamOutcome.response status txt jb)).2
          ≠ .error (HTTPError.mk 504 gatewayTimeoutDetail)) := by
  refine ⟨?_, by decide, rfl, ?_⟩
  · unfold chat_with_specific_unit
    rw [h]
  · intro status txt jb hcontra
    unfold chat_with_specific_unit at hcontra
    rw [h] at hcontra
    simp only [] at hcontra
    split at hcontra
    · injection hcontra with h1
      have h2 : (401 : Nat) = 504 := congrArg HTTPError.status h1
      exact absurd h2 (by decide)
    · split at hcontra
      · injection hcontra with h1
        have h2 : (404 : Nat) = 504 := congrArg HTTPError.status h1
        exact absurd h2 (by decide)
      · split at hcontra
        · injection hcontra with h1
          have h2 : "API error: " ++ txt = gatewayTimeoutDetail :=
            congrArg HTTPError.detail h1
          exact apiErrorDetail_ne_timeout txt h2
        · cases jb with
          | error desc =>
              injection hcontra with h1
              have h2 : (500 : Nat) = 504 := congrArg HTTPError.status h1
              exact absurd h2 (by decide)
          | ok response_data =>
              have h2 : (504 : Nat) = 500 := handle200_error_status unit_id
                text response_data (HTTPError.mk 504 gatewayTimeoutDetail)
                hcontra
              exact absurd h2 (by decide)

theorem c6_read_timeout_504_witness :
    (chat_with_specific_unit [("alpha", "sk-1")] "alpha" "hi"
        UpstreamOutcome.readTimeout).2
      = .error (HTTPError.mk 504 gatewayTimeoutDetail) :=
  (c6_read_timeout_504 [("alpha", "sk-1")] "alpha" "hi" "sk-1" rfl).1

/-- C7: an upstream 200 whose body is an object with choices holding one
choice whose message object maps content to the string c yields a successful
ChatResponse with content c, the requested unit id, the length of the caller
text as raw input length, and the upstream payload itself as raw response. -/
theorem c7_success_extracts_content (agents : List (String × String))
    (unit_id text secret txt c : String)
    (h : lookupSecret agents unit_id = some secret) :
    (chat_with_specific_unit agents unit_id text
        (UpstreamOutcome.response 200 txt
          (.ok (JVal.obj [("choices", JVal.arr
            [JVal.obj [("message", JVal.obj [("content", JVal.str c)])]])])))).2
      = .ok (ChatResponse.mk (JVal.str c) unit_id text.length
          (JVal.obj [("choices", JVal.arr
            [JVal.obj [("message", JVal.obj [("content", JVal.str c)])]])])) := by
  unfold chat_with_specific_unit
  rw [h]
  rfl

theorem c7_success_extracts_content_witness :
    (chat_with_specific_unit [("alpha", "sk-1")] "alpha" "hi"
        (UpstreamOutcome.response 200 ""
          (.ok (JVal.obj [("choices", JVal.arr
            [JVal.obj [("message", JVal.obj [("content", JVal.str "hello")])]])])))).2
      = .ok (ChatResponse.mk (JVal.str "hello") "alpha" 2
          (JVal.obj [("choices", JVal.arr
            [JVal.obj [("message", JVal.obj [("content", JVal.str "hello")])]])])) :=
  c7_success_extracts_content [("alpha", "sk-1")] "alpha" "hi" "sk-1" ""
    "hello" rfl

/-- Lowercasing one character never yields an ASCII uppercase letter. -/
theorem isUpperAscii_pyLowerChar (c : Char) :
    isUpperAscii (pyLowerChar c) = false := by
  unfold pyLowerChar
  cases hf : asciiCasePairs.find? (fun p => p.1 == c) with
  | none =>
      unfold isUpperAscii
      rw [List.any_eq_false]
      intro p hp
      exact List.find?_eq_none.mp hf p hp
  | some p =>
      have hmem : p ∈ asciiCasePairs := List.mem_of_find?_eq_some hf
      fin_cases hmem <;> rfl

/-- Every character of a lowercased string is free of ASCII uppercase. -/
theorem pyLower_no_upper (s : String) :
    ∀ c ∈ (pyLower s).data, isUpperAscii c = false := by
  intro c hc
  have hc2 : c ∈ s.data.map pyLowerChar := hc
  rcases List.mem_map.mp hc2 with ⟨a, _, ha⟩
  rw [← ha]
  exact isUpperAscii_pyLowerChar a

/-- A key present after a dict assignment is the assigned key or an old key. -/
theorem dictKeys_dictInsert (d : List (String × String)) (k v x : String)
    (hx : x ∈ dictKeys (dictInsert d k v)) : x = k ∨ x ∈ dictKeys d := by
  unfold dictInsert at hx
  split at hx
  · unfold dictKeys at hx
    rw [List.map_map] at hx
    rcases List.mem_map.mp hx with ⟨kv, hkv, hkx⟩
    by_cases hkk : (kv.1 == k) = true
    · left
      rw [← hkx]
      have hkk2 : kv.1 = k := by simpa using hkk
      simp [hkk2]
    · right
      rw [← hkx]
      simp only [Function.comp_apply, if_neg hkk]
      exact List.mem_map.mpr ⟨kv, hkv, rfl⟩
  · unfold dictKeys at hx ⊢
    rw [List.map_append] at hx
    rcases List.mem_append.mp hx with h | h
    · right; exact h
    · left; simpa using h

/-- Keys accumulated by the registry loop are free of ASCII uppercase as soon
as the starting accumulator is. -/
theorem rei_agents_keys_no_upper_aux (environ : List (String × String)) :
    ∀ acc, (∀ x ∈ dictKeys acc, ∀ c ∈ x.data, isUpperAscii c = false) →
      ∀ x ∈ dictKeys (environ.foldl reiAgentsStep acc),
        ∀ c ∈ x.data, isUpperAscii c = false := by
  induction environ with
  | nil => intro acc hacc; simpa using hacc
  | cons kv env ih =>
      intro acc hacc
      rw [List.foldl_cons]
      apply ih
      intro x hx c hc
      unfold reiAgentsStep at hx
      split at hx
      · rcases dictKeys_dictInsert acc _ kv.2 x hx with h | h
        · rw [h] at hc
          exact pyLower_no_upper _ c hc
        · exact hacc x h c hc
      · exact hacc x hx c hc

/-- The registry loop ignores environment entries with an empty value. -/
theorem rei_agents_skip_empty_aux (environ : List (String × String)) :
    ∀ acc, environ.foldl reiAgentsStep acc
      = (environ.filter (fun kv => kv.2 != "")).foldl reiAgentsStep acc := by
  induction environ with
  | nil => intro acc; rfl
  | cons kv env ih =>
      intro acc
      rw [List.foldl_cons, List.filter_cons]
      by_cases hv : (kv.2 != "") = true
      · rw [if_pos hv, List.foldl_cons]
        exact ih (reiAgentsStep acc kv)
      · rw [if_neg hv]
        have hstep : reiAgentsStep acc kv = acc := by
          unfold reiAgentsStep
          rw [Bool.not_eq_true] at hv
          rw [hv, Bool.and_false]
          rfl
        rw [hstep]
        exact ih acc

/-- C10: registry keys are lowercased on load (prefix-stripped environment
names run through the lowercasing map, entries with empty values being
skipped), and the chat lookup is case-sensitive against those keys: a unit id
holding an ASCII uppercase letter is never found, even when a matching
environment variable is configured, so the handler answers with the
enumerating 404 and issues no outbound request. -/
theorem c10_registry_keys_lowercase (environ : List (String × String)) :
    (∀ x ∈ dictKeys (rei_agents environ), ∀ c ∈ x.data,
        isUpperAscii c = false)
    ∧ rei_agents environ = rei_agents (environ.filter (fun kv => kv.2 != ""))
    ∧ (∀ (unit_id text : String) (upstream : UpstreamOutcome),
        unit_id.data.any isUpperAscii = true →
        chat_with_specific_unit (rei_agents environ) unit_id text upstream
          = ([], .error (HTTPError.mk 404 (unitNotFoundDetail unit_id
              (dictKeys (rei_agents environ)))))) := by
  refine ⟨?_, ?_, ?_⟩
  · exact rei_agents_keys_no_upper_aux environ [] (by simp [dictKeys])
  · exact rei_agents_skip_empty_aux environ []
  · intro unit_id text upstream hup
    apply chat_unit_not_found
    rw [lookupSecret_eq_none_iff]
    intro hmem
    rcases List.any_eq_true.mp hup with ⟨c, hc, hcu⟩
    have hfree := rei_agents_keys_no_upper_aux environ [] (by simp [dictKeys])
      unit_id hmem c hc
    rw [hfree] at hcu
    exact Bool.noConfusion hcu

theorem c10_registry_keys_lowercase_witness :
    chat_with_specific_unit
        (rei_agents [("REI_AGENT_SECRET_ALPHA", "sk-1")]) "Alpha" "hi"
        UpstreamOutcome.readTimeout
      = ([], .error (HTTPError.mk 404 (unitNotFoundDetail "Alpha"
          (dictKeys (rei_agents [("REI_AGENT_SECRET_ALPHA", "sk-1")]))))) :=
  (c10_registry_keys_lowercase [("REI_AGENT_SECRET_ALPHA", "sk-1")]).2.2
    "Alpha" "hi" UpstreamOutcome.readTimeout (by decide)
